import Mathlib

/-!
Shallow embedding of the order-settlement core of the gameshop backend
(src/server.js): wallet, cart, library, orders, discount codes, the two
settlement entry points (direct buy: POST /api/orders/buy, cart checkout:
POST /api/users/cart/checkout), the bare order-recording endpoint
(POST /api/orders), and the discount usage update and its compensating
rollback.

Modelling conventions:
* JS numbers are modelled as rationals (Money := ℚ); integer counters
  (usedCount, usageLimit, totalSold, quantities) live in the same type,
  as in the source where all are JS numbers.
* Firestore collections are association lists keyed by document id;
  lookup and update both act on the first matching entry, matching
  Firestore's unique document ids and the source's limit(1) queries.
* A JS value-or-default expression such as x || 0 on a number field is
  the identity except at 0 (and at a missing field, which the model makes
  total); x || 1 maps 0 to 1.  These are spelled out where the source
  uses them.
* The absent promoCode / redeemCode of a request body is modelled as the
  empty string, matching JS string falsiness in the source's guards.
* Each Firestore runTransaction body in the source writes values computed
  from snapshots read BEFORE the transaction began; the embedding keeps
  those snapshot parameters explicit (buyTxn, settleItem).
-/

namespace GameShop

/-- JS String.prototype.toUpperCase restricted to the ASCII range, as a
structurally recursive map so that concrete instances evaluate. -/
def jsToUpper (s : String) : String := String.mk (s.data.map Char.toUpper)

/-- Money and counters: JS numbers, modelled as rationals. -/
abbrev Money := ℚ

/-- users/{id} document: only the wallet field takes part in settlement. -/
structure User where
  wallet : Money
  deriving DecidableEq

/-- games/{id} document fields used by settlement (server.js:548-558). -/
structure Game where
  name : String
  price : Money
  totalSold : Money
  isActive : Bool
  deriving DecidableEq

/-- discounts/{id} document (server.js:1071-1083). -/
structure DiscountCode where
  code : String
  dtype : String
  value : Money
  minSpend : Money
  maxDiscount : Option Money
  expireAt : Option Int
  isActive : Bool
  usedBy : List String
  usedCount : Money
  usageLimit : Money
  deriving DecidableEq

/-- orders/{id} document as written by the settlement paths. -/
structure Order where
  userId : String
  gameId : String
  gameName : String
  quantity : Money
  price : Money
  status : String
  redeemCode : String
  deriving DecidableEq

/-- The persistent store: users, games, discounts, append-only orders,
per-user cart lines (userId, gameId, quantity) and library pairs
(userId, gameId). -/
structure Store where
  users : List (String × User)
  games : List (String × Game)
  discounts : List DiscountCode
  orders : List Order
  carts : List (String × String × Money)
  library : List (String × String)
  deriving DecidableEq

/-- Update the first list entry satisfying p, as a Firestore
doc-ref update does after a limit(1) / docs[0] query. -/
def updateFirst {α : Type} (p : α → Bool) (f : α → α) : List α → List α
  | [] => []
  | a :: as => if p a then f a :: as else a :: updateFirst p f as

def findUser (s : Store) (uid : String) : Option User :=
  List.lookup uid s.users

def findGame (s : Store) (gid : String) : Option Game :=
  List.lookup gid s.games

/-- Query discounts where code == c, limit(1), docs[0]. -/
def findDiscount (s : Store) (c : String) : Option DiscountCode :=
  s.discounts.find? (fun d => d.code == c)

/-- transaction.update(userRef, .. wallet .. ): replace the wallet of the
first (unique) entry for uid. -/
def setWallet (uid : String) (w : Money) :
    List (String × User) → List (String × User) :=
  updateFirst (fun a => a.1 == uid) (fun a => (a.1, { wallet := w }))

/-- transaction.set(libraryRef, ..) is an upsert keyed by (uid, gid). -/
def grantLibrary (lib : List (String × String)) (uid gid : String) :
    List (String × String) :=
  if (uid, gid) ∈ lib then lib else lib ++ [(uid, gid)]

/-! ### Direct purchase: POST /api/orders/buy (server.js:1477-1549) -/

inductive BuyResult
  | success (newWallet : Money)
  | missingGameId
  | userNotFound
  | gameNotFound
  | insufficientFunds
  deriving DecidableEq

/-- The runTransaction body of the direct buy (server.js:1505-1529).
preUser and preGame are the snapshots fetched at server.js:1489, before
the transaction began; every written value is computed from them. -/
def buyTxn (s : Store) (uid gid : String) (preUser : User) (preGame : Game) :
    Store :=
  { s with
    users := setWallet uid (preUser.wallet - preGame.price) s.users
    orders := s.orders ++ [{ userId := uid, gameId := gid,
                             gameName := preGame.name, quantity := 1,
                             price := preGame.price, status := "completed",
                             redeemCode := "" }]
    games := updateFirst (fun a => a.1 == gid)
               (fun a => (a.1, { a.2 with totalSold := preGame.totalSold + 1 }))
               s.games
    library := grantLibrary s.library uid gid }

/-- POST /api/orders/buy: missing-gameId guard, user and game existence
checks, wallet precheck, then the transaction (server.js:1477-1549).
No check of the game's isActive flag and no ownership check appear in the
source. -/
def buyGame (s : Store) (uid gid : String) : BuyResult × Store :=
  if gid == "" then (BuyResult.missingGameId, s)
  else
    match findUser s uid with
    | none => (BuyResult.userNotFound, s)
    | some u =>
      match findGame s gid with
      | none => (BuyResult.gameNotFound, s)
      | some g =>
        if u.wallet < g.price then (BuyResult.insufficientFunds, s)
        else (BuyResult.success (u.wallet - g.price), buyTxn s uid gid u g)

/-! ### Cart checkout: POST /api/users/cart/checkout (server.js:1602-1817) -/

/-- The user's cart snapshot with quantity || 1 applied
(server.js:1617-1620). -/
def cartOf (s : Store) (uid : String) : List (String × Money) :=
  (s.carts.filter (fun t => t.1 == uid)).map
    (fun t => (t.2.1, if t.2.2 == 0 then 1 else t.2.2))

/-- Game ids of the user's library (server.js:1623-1627). -/
def ownedOf (s : Store) (uid : String) : List String :=
  (s.library.filter (fun t => t.1 == uid)).map (fun t => t.2)

/-- Cart lines whose game the user does not already own
(server.js:1630-1632). -/
def filteredCartOf (s : Store) (uid : String) : List (String × Money) :=
  (cartOf s uid).filter (fun it => !(ownedOf s uid).contains it.1)

/-- total = Σ (game?.price || 0) * quantity over the filtered cart
(server.js:1656-1659); a missing game contributes 0. -/
def subtotalOf (s : Store) (uid : String) : Money :=
  (filteredCartOf s uid).foldl
    (fun acc it =>
      acc + (match findGame s it.1 with
             | some g => g.price
             | none => 0) * it.2) 0

/-- The expiry test of the checkout path (server.js:1675-1684):
no expireAt passes, otherwise expireDate > now must hold. -/
def expireOkAt (d : DiscountCode) (now : Int) : Bool :=
  match d.expireAt with
  | none => true
  | some e => decide (now < e)

/-- Steps 5 of checkout (server.js:1661-1694): look the code up by its
uppercased form; if found, bind the snapshot; the discount is nonzero only
when the code is active and unexpired, computed as total*value/100 for
percent codes and value for fixed codes.  usageLimit, minSpend, usedBy and
maxDiscount are not consulted here. -/
def resolveDiscount (s : Store) (promo : String) (total : Money) (now : Int) :
    Money × Option DiscountCode :=
  if promo == "" then (0, none)
  else
    match findDiscount s (jsToUpper promo) with
    | none => (0, none)
    | some d =>
      if d.isActive && expireOkAt d now then
        if d.dtype == "percent" then (total * d.value / 100, some d)
        else if d.dtype == "fixed" then (d.value, some d)
        else (0, some d)
      else (0, some d)

def discountOf (s : Store) (uid promo : String) (now : Int) : Money :=
  (resolveDiscount s promo (subtotalOf s uid) now).1

/-- finalTotal = Math.max(total - discount, 0) (server.js:1696). -/
def finalTotalOf (s : Store) (uid promo : String) (now : Int) : Money :=
  max (subtotalOf s uid - discountOf s uid promo now) 0

/-- One iteration of the checkout transaction loop (server.js:1715-1742):
the game snapshot comes from the pre-transaction batch fetch over the
store pre; a line whose game is missing is skipped (continue); otherwise
one completed order is appended, the game's totalSold is written to
snapshot totalSold + quantity, and the library entry is upserted. -/
def settleItem (pre : Store) (uid promo : String) (s : Store)
    (it : String × Money) : Store :=
  match findGame pre it.1 with
  | none => s
  | some g =>
    { s with
      orders := s.orders ++ [{ userId := uid, gameId := it.1,
                               gameName := g.name, quantity := it.2,
                               price := g.price * it.2,
                               status := "completed", redeemCode := promo }]
      games := updateFirst (fun a => a.1 == it.1)
                 (fun a => (a.1, { a.2 with totalSold := g.totalSold + it.2 }))
                 s.games
      library := grantLibrary s.library uid it.1 }

/-- The checkout runTransaction body (server.js:1709-1746): debit the
wallet to pre-read wallet - finalTotal, settle every filtered line, then
delete every cart document of the user. -/
def checkoutTxn (s : Store) (uid promo : String) (preUser : User)
    (finalTotal : Money) : Store :=
  let s0 := { s with users := setWallet uid (preUser.wallet - finalTotal) s.users }
  let s1 := (filteredCartOf s uid).foldl (settleItem s uid promo) s0
  { s1 with carts := s1.carts.filter (fun t => !(t.1 == uid)) }

/-- The post-commit discount usage update (server.js:1749-1772), applied
whenever a promoCode was supplied and its document was found, regardless
of the code's eligibility.  snap is the pre-checkout snapshot; usedCount
and isActive are written absolutely from it, usedBy by arrayUnion on the
stored document. -/
def applyUsage (snap : DiscountCode) (uid : String) (stored : DiscountCode) :
    DiscountCode :=
  let newUsedCount := snap.usedCount + 1
  let limit := if snap.usageLimit == 0 then 1 else snap.usageLimit
  { stored with
    usedBy := if stored.usedBy.contains uid then stored.usedBy
              else stored.usedBy ++ [uid]
    usedCount := newUsedCount
    isActive := decide (newUsedCount < limit) }

/-- The store after a successful checkout: the transaction followed by the
best-effort discount usage update. -/
def checkoutPost (s : Store) (uid promo : String) (now : Int) (u : User) :
    Store :=
  let s1 := checkoutTxn s uid promo u (finalTotalOf s uid promo now)
  match (resolveDiscount s promo (subtotalOf s uid) now).2 with
  | none => s1
  | some snap =>
    { s1 with discounts := updateFirst (fun d => d.code == jsToUpper promo)
                (applyUsage snap uid) s1.discounts }

inductive CheckoutResult
  | success (newWallet discount total finalTotal : Money)
  | emptyCart
  | allOwned
  | userNotFound
  | insufficientFunds
  deriving DecidableEq

/-- POST /api/users/cart/checkout (server.js:1602-1793): empty-cart and
all-owned guards, pricing and discount resolution (pure reads), user
lookup, wallet precheck, then the transaction and the usage update.
The user lookup is hoisted before the (mutation-free) pricing step; the
source performs it just after, with identical observable behaviour. -/
def checkout (s : Store) (uid promo : String) (now : Int) :
    CheckoutResult × Store :=
  if (cartOf s uid).isEmpty then (CheckoutResult.emptyCart, s)
  else if (filteredCartOf s uid).isEmpty then (CheckoutResult.allOwned, s)
  else
    match findUser s uid with
    | none => (CheckoutResult.userNotFound, s)
    | some u =>
      if u.wallet < finalTotalOf s uid promo now then
        (CheckoutResult.insufficientFunds, s)
      else
        (CheckoutResult.success (u.wallet - finalTotalOf s uid promo now)
           (discountOf s uid promo now) (subtotalOf s uid)
           (finalTotalOf s uid promo now),
         checkoutPost s uid promo now u)

/-! ### Bare order recording: POST /api/orders (server.js:1242-1291) -/

/-- POST /api/orders: append a completed order; when a redeemCode is
supplied (truthy) and its document is found (queried by the raw code, not
uppercased), set its usedCount to snapshot usedCount + 1.  No usageLimit,
isActive, expiry or usedBy check, and no totalSold update, appear in the
source. -/
def createOrder (s : Store) (uid gid gname : String) (price qty : Money)
    (redeem : String) : Store :=
  let s1 := { s with
    orders := s.orders ++ [{ userId := uid, gameId := gid, gameName := gname,
                             quantity := qty, price := price,
                             status := "completed", redeemCode := redeem }] }
  if redeem == "" then s1
  else
    match findDiscount s redeem with
    | none => s1
    | some d =>
      { s1 with discounts := updateFirst (fun x => x.code == redeem)
                  (fun stored => { stored with usedCount := d.usedCount + 1 })
                  s1.discounts }

/-! ### Discount rollback on checkout failure (server.js:1798-1813) -/

/-- The compensating update of the checkout catch block: usedCount is
written to Math.max((snapshot usedCount || 1) - 1, 0) where the snapshot
is the PRE-checkout read, the user is arrayRemove'd from usedBy, and the
code is reactivated. -/
def rollbackUsage (snap : DiscountCode) (uid : String)
    (stored : DiscountCode) : DiscountCode :=
  let rollbackCount := max ((if snap.usedCount == 0 then 1 else snap.usedCount) - 1) 0
  { stored with
    usedCount := rollbackCount
    usedBy := stored.usedBy.filter (fun x => !(x == uid))
    isActive := true }

/-- The rollback applied to the store: only the discount document matched
by the uppercased promo code is touched. -/
def checkoutRollback (s : Store) (promo uid : String) (snap : DiscountCode) :
    Store :=
  { s with discounts := updateFirst (fun d => d.code == jsToUpper promo)
             (rollbackUsage snap uid) s.discounts }

/-! ### Concrete stores used by witnesses and counterexamples -/

/-- wallet 100, one game of price 60, that game once in the cart. -/
def storeA : Store :=
  { users := [("u", ⟨100⟩)]
    games := [("g", ⟨"G", 60, 0, true⟩)]
    discounts := []
    orders := []
    carts := [("u", "g", 1)]
    library := [] }

/-- wallet 10 only: both settlement paths must reject for lack of funds. -/
def storeB : Store :=
  { users := [("u", ⟨10⟩)]
    games := [("g", ⟨"G", 60, 0, true⟩)]
    discounts := []
    orders := []
    carts := [("u", "g", 1)]
    library := [] }

/-- subtotal 200 cart with a 10-percent code whose maxDiscount is 5. -/
def storeC3x : Store :=
  { users := [("u", ⟨500⟩)]
    games := [("g", ⟨"G", 200, 0, true⟩)]
    discounts := [⟨"P10", "percent", 10, 0, some 5, none, true, [], 0, 10⟩]
    orders := []
    carts := [("u", "g", 1)]
    library := [] }

/-- an active, unexpired fixed code that is used up (5 uses of limit 1),
below its minimum spend (subtotal 20 < 50) and already used by "u". -/
def storeC4x : Store :=
  { users := [("u", ⟨100⟩)]
    games := [("g", ⟨"G", 20, 0, true⟩)]
    discounts := [⟨"SAVE", "fixed", 10, 50, none, none, true, ["u"], 5, 1⟩]
    orders := []
    carts := [("u", "g", 1)]
    library := [] }

/-- an inactive code: eligibility fails but the usage update still runs. -/
def storeC10x : Store :=
  { users := [("u", ⟨100⟩)]
    games := [("g", ⟨"G", 60, 0, true⟩)]
    discounts := [⟨"OLD", "fixed", 10, 0, none, none, false, [], 0, 1⟩]
    orders := []
    carts := [("u", "g", 1)]
    library := [] }

/-- a fresh single-use code, target of repeated order recordings. -/
def storeC6x : Store :=
  { users := []
    games := []
    discounts := [⟨"FIXED10", "fixed", 10, 0, none, none, true, [], 0, 1⟩]
    orders := []
    carts := []
    library := [] }

/-- a code already at its limit of 2 uses. -/
def storeC6y : Store :=
  { users := []
    games := []
    discounts := [⟨"LIM2", "fixed", 5, 0, none, none, true, [], 2, 2⟩]
    orders := []
    carts := []
    library := [] }

/-- one game with totalSold 3 and no orders yet. -/
def storeC7x : Store :=
  { users := []
    games := [("g", ⟨"G", 10, 3, true⟩)]
    discounts := []
    orders := []
    carts := []
    library := [] }

/-- an inactive (soft-deleted) game and a funded user. -/
def storeC8x : Store :=
  { users := [("u", ⟨100⟩)]
    games := [("g", ⟨"G", 10, 0, false⟩)]
    discounts := []
    orders := []
    carts := []
    library := [] }

/-- a funded user and a cheap game for the concurrency scenario. -/
def storeC5x : Store :=
  { users := [("u", ⟨100⟩)]
    games := [("g", ⟨"G", 10, 0, true⟩)]
    discounts := []
    orders := []
    carts := []
    library := [] }

/-- the discount snapshot of the rollback scenario: one prior use. -/
def snapC9 : DiscountCode :=
  ⟨"SAVE", "fixed", 10, 0, none, none, true, [], 1, 5⟩

/-! ### Helper lemmas about the store primitives -/

theorem lookup_updateFirst {β : Type} (uid : String)
    (f : String × β → String × β) (hf : ∀ a, (f a).1 = a.1)
    (l : List (String × β)) :
    List.lookup uid (updateFirst (fun a => a.1 == uid) f l)
      = (List.lookup uid l).map (fun v => (f (uid, v)).2) := by
  induction l with
  | nil => rfl
  | cons a as ih =>
    obtain ⟨k, v⟩ := a
    by_cases h : k = uid
    · subst h
      rcases hfk : f (k, v) with ⟨k2, v2⟩
      have hk2 : k2 = k := by
        have := hf (k, v)
        rw [hfk] at this
        exact this
      subst hk2
      simp [updateFirst, List.lookup, hfk]
    · have hbe : (uid == k) = false := beq_eq_false_iff_ne.mpr (Ne.symm h)
      have hbe2 : (k == uid) = false := beq_eq_false_iff_ne.mpr h
      simp [updateFirst, List.lookup, hbe, hbe2, ih]

theorem find?_updateFirst {α : Type} (p : α → Bool) (f : α → α)
    (hp : ∀ a, p a = true → p (f a) = true) (l : List α) :
    List.find? p (updateFirst p f l) = (List.find? p l).map f := by
  induction l with
  | nil => rfl
  | cons a as ih =>
    by_cases h : p a = true
    · simp [updateFirst, h, hp a h, List.find?]
    · simp only [Bool.not_eq_true] at h
      simp [updateFirst, h, List.find?, ih]

theorem map_updateFirst {α β : Type} (p : α → Bool) (f : α → α) (m : α → β)
    (hm : ∀ a, m (f a) = m a) (l : List α) :
    (updateFirst p f l).map m = l.map m := by
  induction l with
  | nil => rfl
  | cons a as ih =>
    by_cases h : p a = true
    · simp [updateFirst, h, hm]
    · simp only [Bool.not_eq_true] at h
      simp [updateFirst, h, ih]

theorem findUser_setWallet (uid : String) (w : Money)
    (l : List (String × User)) (u : User) (hu : List.lookup uid l = some u) :
    List.lookup uid (setWallet uid w l) = some ⟨w⟩ := by
  unfold setWallet
  rw [lookup_updateFirst uid (fun a => (a.1, ({ wallet := w } : User)))
    (fun a => rfl) l, hu]
  rfl

/-! ### Frame lemmas for the checkout transaction -/

theorem settleItem_users (pre : Store) (uid promo : String) (s : Store)
    (it : String × Money) : (settleItem pre uid promo s it).users = s.users := by
  unfold settleItem
  cases findGame pre it.1 <;> rfl

theorem settleItem_discounts (pre : Store) (uid promo : String) (s : Store)
    (it : String × Money) :
    (settleItem pre uid promo s it).discounts = s.discounts := by
  unfold settleItem
  cases findGame pre it.1 <;> rfl

theorem foldl_settleItem_users (pre : Store) (uid promo : String)
    (items : List (String × Money)) (s : Store) :
    (items.foldl (settleItem pre uid promo) s).users = s.users := by
  induction items generalizing s with
  | nil => rfl
  | cons it its ih => rw [List.foldl_cons, ih, settleItem_users]

theorem foldl_settleItem_discounts (pre : Store) (uid promo : String)
    (items : List (String × Money)) (s : Store) :
    (items.foldl (settleItem pre uid promo) s).discounts = s.discounts := by
  induction items generalizing s with
  | nil => rfl
  | cons it its ih => rw [List.foldl_cons, ih, settleItem_discounts]

theorem checkoutTxn_users (s : Store) (uid promo : String) (u : User)
    (ft : Money) :
    (checkoutTxn s uid promo u ft).users = setWallet uid (u.wallet - ft) s.users := by
  unfold checkoutTxn
  rw [foldl_settleItem_users]

theorem checkoutTxn_discounts (s : Store) (uid promo : String) (u : User)
    (ft : Money) : (checkoutTxn s uid promo u ft).discounts = s.discounts := by
  unfold checkoutTxn
  rw [foldl_settleItem_discounts]

theorem checkoutPost_users (s : Store) (uid promo : String) (now : Int)
    (u : User) :
    (checkoutPost s uid promo now u).users
      = setWallet uid (u.wallet - finalTotalOf s uid promo now) s.users := by
  unfold checkoutPost
  cases (resolveDiscount s promo (subtotalOf s uid) now).2 <;>
    simp [checkoutTxn_users]

/-- Whenever a nonempty promo code is supplied, the snapshot bound by the
discount resolution is exactly the looked-up document, whatever its
eligibility. -/
theorem resolveDiscount_snd (s : Store) (promo : String) (t : Money)
    (now : Int) (hp : (promo == "") = false) :
    (resolveDiscount s promo t now).2 = findDiscount s (jsToUpper promo) := by
  unfold resolveDiscount
  cases hfd : findDiscount s (jsToUpper promo) with
  | none => simp [hp]
  | some d =>
    simp only [hp, Bool.false_eq_true, if_false]
    split_ifs <;> rfl

/-! ### C1 -/

/-- C1: for every successful settlement (direct buy or cart checkout) the
user's wallet afterwards equals the wallet before minus finalTotal, and
finalTotal is non-negative.  For the direct buy, finalTotal is the game's
price; the source itself never validates prices, so non-negativity there
is the data model's price invariant, taken as a hypothesis.  For checkout,
finalTotal = max(total - discount, 0) is non-negative unconditionally. -/
theorem C1_settlement_debits_exactly_finalTotal :
    (∀ (s : Store) (uid gid : String) (u : User) (g : Game) (w : Money),
        findUser s uid = some u → findGame s gid = some g → 0 ≤ g.price →
        (buyGame s uid gid).1 = BuyResult.success w →
        findUser (buyGame s uid gid).2 uid = some ⟨u.wallet - g.price⟩ ∧
        0 ≤ g.price) ∧
    (∀ (s : Store) (uid promo : String) (now : Int) (u : User)
        (w d t ft : Money),
        findUser s uid = some u →
        (checkout s uid promo now).1 = CheckoutResult.success w d t ft →
        findUser (checkout s uid promo now).2 uid = some ⟨u.wallet - ft⟩ ∧
        0 ≤ ft) := by
  constructor
  · intro s uid gid u g w hu hg hp hres
    unfold buyGame at hres ⊢
    cases hgid : (gid == "") with
    | true => simp [hgid] at hres
    | false =>
      simp only [hgid, Bool.false_eq_true, if_false, hu, hg] at hres ⊢
      by_cases hlt : u.wallet < g.price
      · simp [hlt] at hres
      · simp only [if_neg hlt] at hres ⊢
        refine ⟨?_, hp⟩
        show findUser (buyTxn s uid gid u g) uid = _
        unfold findUser buyTxn
        exact findUser_setWallet uid _ s.users u hu
  · intro s uid promo now u w d t ft hu hres
    unfold checkout at hres ⊢
    cases hc : (cartOf s uid).isEmpty with
    | true => simp [hc] at hres
    | false =>
      simp only [hc, Bool.false_eq_true, if_false] at hres ⊢
      cases hf : (filteredCartOf s uid).isEmpty with
      | true => simp [hf] at hres
      | false =>
        simp only [hf, Bool.false_eq_true, if_false, hu] at hres ⊢
        by_cases hw : u.wallet < finalTotalOf s uid promo now
        · simp [hw] at hres
        · simp only [if_neg hw] at hres ⊢
          simp only [CheckoutResult.success.injEq] at hres
          obtain ⟨hw', hd', ht', hft⟩ := hres
          subst hft
          refine ⟨?_, le_max_right _ _⟩
          show findUser (checkoutPost s uid promo now u) uid = _
          unfold findUser
          rw [checkoutPost_users]
          exact findUser_setWallet uid _ s.users u hu

/-- C1 witness: on storeA, a direct buy of the 60-unit game and a no-code
checkout of the same cart both leave the wallet at 100 - 60 = 40. -/
theorem C1_settlement_debits_exactly_finalTotal_witness :
    findUser (buyGame storeA "u" "g").2 "u" = some ⟨40⟩ ∧
    findUser (checkout storeA "u" "" 0).2 "u" = some ⟨40⟩ ∧ (0 : Money) ≤ 60 := by
  have hgid : ("g" == "") = false := by decide
  have h1 := (C1_settlement_debits_exactly_finalTotal.1 storeA "u" "g" ⟨100⟩
    ⟨"G", 60, 0, true⟩ 40 rfl rfl (by norm_num)
    (by norm_num [buyGame, findUser, findGame, storeA, List.lookup, hgid])).1
  have h2 := (C1_settlement_debits_exactly_finalTotal.2 storeA "u" "" 0 ⟨100⟩
    40 0 60 60 rfl
    (by norm_num [checkout, cartOf, filteredCartOf, ownedOf, subtotalOf,
      discountOf, finalTotalOf, resolveDiscount, findUser, findGame,
      findDiscount, storeA, List.lookup, List.filter, List.foldl])).1
  norm_num at h1 h2
  exact ⟨h1, h2, by norm_num⟩

/-! ### C2 -/

/-- C2: a direct buy or checkout whose wallet balance is below the
computed finalTotal fails with the insufficient-funds result and returns
the store unchanged (wallet, orders, totalSold, library and cart are all
untouched). -/
theorem C2_insufficient_funds_rejects_without_mutation :
    (∀ (s : Store) (uid gid : String) (u : User) (g : Game),
        (gid == "") = false →
        findUser s uid = some u → findGame s gid = some g →
        u.wallet < g.price →
        buyGame s uid gid = (BuyResult.insufficientFunds, s)) ∧
    (∀ (s : Store) (uid promo : String) (now : Int) (u : User),
        (cartOf s uid).isEmpty = false →
        (filteredCartOf s uid).isEmpty = false →
        findUser s uid = some u →
        u.wallet < finalTotalOf s uid promo now →
        checkout s uid promo now = (CheckoutResult.insufficientFunds, s)) := by
  constructor
  · intro s uid gid u g hgid hu hg hlt
    unfold buyGame
    simp only [hgid, Bool.false_eq_true, if_false, hu, hg]
    rw [if_pos hlt]
  · intro s uid promo now u hc hf hu hlt
    unfold checkout
    simp only [hc, hf, Bool.false_eq_true, if_false, hu]
    rw [if_pos hlt]

/-- C2 witness: on storeB (wallet 10, price 60) both entry points reject
with the insufficient-funds result and leave the store exactly as it was. -/
theorem C2_insufficient_funds_rejects_without_mutation_witness :
    buyGame storeB "u" "g" = (BuyResult.insufficientFunds, storeB) ∧
    checkout storeB "u" "" 0 = (CheckoutResult.insufficientFunds, storeB) := by
  constructor
  · exact C2_insufficient_funds_rejects_without_mutation.1 storeB "u" "g"
      ⟨10⟩ ⟨"G", 60, 0, true⟩ (by decide) rfl rfl (by norm_num)
  · exact C2_insufficient_funds_rejects_without_mutation.2 storeB "u" "" 0
      ⟨10⟩
      (by norm_num [cartOf, storeB, List.filter])
      (by norm_num [filteredCartOf, cartOf, ownedOf, storeB, List.filter])
      rfl
      (by norm_num [finalTotalOf, discountOf, subtotalOf, resolveDiscount,
        filteredCartOf, cartOf, ownedOf, findGame, storeB, List.lookup,
        List.filter, List.foldl])

/-! ### C3 -/

/-- C3 counterexample: on storeC3x the cart subtotal is 200 and the code
P10 is a 10-percent code with maxDiscount 5, yet checkout settles with
discount 20 and finalTotal 180 — the cap is not applied, refuting the
claimed discount 5 / finalTotal 195. -/
theorem C3_maxDiscount_cap_counterexample :
    findDiscount storeC3x "P10" =
      some ⟨"P10", "percent", 10, 0, some 5, none, true, [], 0, 10⟩ ∧
    subtotalOf storeC3x "u" = 200 ∧
    (checkout storeC3x "u" "P10" 0).1 = CheckoutResult.success 320 20 200 180 ∧
    (checkout storeC3x "u" "P10" 0).1 ≠ CheckoutResult.success 335 5 200 195 := by
  have hj : jsToUpper "P10" = "P10" := by decide
  have hne : ¬ ("P10" = "") := by decide
  refine ⟨by norm_num [findDiscount, storeC3x, List.find?], ?_, ?_, ?_⟩
  · norm_num [subtotalOf, filteredCartOf, cartOf, ownedOf, findGame, storeC3x,
      List.filter, List.foldl, List.lookup]
  · norm_num [checkout, cartOf, filteredCartOf, ownedOf, subtotalOf,
      discountOf, finalTotalOf, resolveDiscount, findUser, findGame,
      findDiscount, storeC3x, List.lookup, List.filter, List.foldl, hj, hne,
      expireOkAt]
  · norm_num [checkout, cartOf, filteredCartOf, ownedOf, subtotalOf,
      discountOf, finalTotalOf, resolveDiscount, findUser, findGame,
      findDiscount, storeC3x, List.lookup, List.filter, List.foldl, hj, hne,
      expireOkAt]

/-- C3 amended: for an accepted code at checkout (found, active and
unexpired), a percent code yields discount = subtotal * value / 100 with
no cap — maxDiscount is never read — a fixed code yields discount = value,
and finalTotal = max(subtotal - discount, 0) is never negative. -/
theorem C3_discount_formula_without_cap
    (s : Store) (uid promo : String) (now : Int) (d : DiscountCode)
    (hp : (promo == "") = false)
    (hd : findDiscount s (jsToUpper promo) = some d)
    (ha : d.isActive = true) (he : expireOkAt d now = true) :
    (d.dtype = "percent" →
      discountOf s uid promo now = subtotalOf s uid * d.value / 100) ∧
    (d.dtype = "fixed" → discountOf s uid promo now = d.value) ∧
    finalTotalOf s uid promo now =
      max (subtotalOf s uid - discountOf s uid promo now) 0 ∧
    0 ≤ finalTotalOf s uid promo now := by
  have hfx : ¬ ("fixed" = "percent") := by decide
  refine ⟨?_, ?_, rfl, le_max_right _ _⟩
  · intro hper
    unfold discountOf resolveDiscount
    simp [hp, hd, ha, he, hper]
  · intro hfix
    unfold discountOf resolveDiscount
    simp [hp, hd, ha, he, hfix, hfx]

/-- C3 witness: on storeC3x the amended formula gives discount
200 * 10 / 100 = 20 and a non-negative finalTotal of 180. -/
theorem C3_discount_formula_without_cap_witness :
    discountOf storeC3x "u" "P10" 0 = 20 ∧
    0 ≤ finalTotalOf storeC3x "u" "P10" 0 := by
  have hj : jsToUpper "P10" = "P10" := by decide
  have h := C3_discount_formula_without_cap storeC3x "u" "P10" 0
    ⟨"P10", "percent", 10, 0, some 5, none, true, [], 0, 10⟩
    (by decide) (by rw [hj]; norm_num [findDiscount, storeC3x, List.find?])
    rfl rfl
  have h1 := h.1 rfl
  have hsub : subtotalOf storeC3x "u" = 200 := by
    norm_num [subtotalOf, filteredCartOf, cartOf, ownedOf, findGame, storeC3x,
      List.filter, List.foldl, List.lookup]
  rw [hsub] at h1
  norm_num at h1
  exact ⟨h1, h.2.2.2⟩

/-! ### C4 -/

/-- C4 counterexample: on storeC4x the code SAVE is used up
(usedCount 5 ≥ usageLimit 1), the subtotal 20 is below its minSpend 50,
and "u" is already in its usedBy set, yet checkout still settles with the
full discount 10 — none of these conditions is checked at checkout and the
discount is not 0, refuting the claim. -/
theorem C4_ineligible_code_still_discounts_counterexample :
    findDiscount storeC4x "SAVE" =
      some ⟨"SAVE", "fixed", 10, 50, none, none, true, ["u"], 5, 1⟩ ∧
    (1 : Money) ≤ 5 ∧
    subtotalOf storeC4x "u" = 20 ∧ (20 : Money) < 50 ∧
    "u" ∈ ["u"] ∧
    (checkout storeC4x "u" "SAVE" 0).1 = CheckoutResult.success 90 10 20 10 ∧
    (10 : Money) ≠ 0 := by
  have hj : jsToUpper "SAVE" = "SAVE" := by decide
  have hne : ¬ ("SAVE" = "") := by decide
  have hfx : ¬ ("fixed" = "percent") := by decide
  refine ⟨by norm_num [findDiscount, storeC4x, List.find?], by norm_num, ?_,
    by norm_num, by simp, ?_, by norm_num⟩
  · norm_num [subtotalOf, filteredCartOf, cartOf, ownedOf, findGame, storeC4x,
      List.filter, List.foldl, List.lookup]
  · norm_num [checkout, cartOf, filteredCartOf, ownedOf, subtotalOf,
      discountOf, finalTotalOf, resolveDiscount, findUser, findGame,
      findDiscount, storeC4x, List.lookup, List.filter, List.foldl, hj, hne,
      hfx, expireOkAt]

/-- C4 amended: at cart checkout only three conditions zero the discount —
the code being absent, inactive, or expired — and they do so silently,
with no distinct reason surfaced; the usage-limit, minimum-spend and
prior-use conditions are not consulted at checkout, so an active unexpired
code contributes its full computed discount even when they are violated
(the per-condition reasons of the claim exist only in the separate
check/validate endpoints, not in checkout). -/
theorem C4_checkout_promo_eligibility
    (s : Store) (uid promo : String) (now : Int) :
    ((promo == "") = false → findDiscount s (jsToUpper promo) = none →
        discountOf s uid promo now = 0) ∧
    (∀ d, findDiscount s (jsToUpper promo) = some d →
        (d.isActive = false ∨ expireOkAt d now = false) →
        discountOf s uid promo now = 0) ∧
    (∀ d, (promo == "") = false → findDiscount s (jsToUpper promo) = some d →
        d.isActive = true → expireOkAt d now = true →
        (d.dtype = "percent" →
          discountOf s uid promo now = subtotalOf s uid * d.value / 100) ∧
        (d.dtype = "fixed" → discountOf s uid promo now = d.value)) := by
  have hfx : ¬ ("fixed" = "percent") := by decide
  refine ⟨?_, ?_, ?_⟩
  · intro hp hnone
    unfold discountOf resolveDiscount
    simp [hp, hnone]
  · intro d hd hbad
    unfold discountOf resolveDiscount
    by_cases hp : (promo == "") = true
    · simp [hp]
    · simp only [Bool.not_eq_true] at hp
      rcases hbad with hba | hbe
      · simp [hp, hd, hba]
      · simp [hp, hd, hbe]
  · intro d hp hd ha he
    constructor
    · intro hper
      unfold discountOf resolveDiscount
      simp [hp, hd, ha, he, hper]
    · intro hfix
      unfold discountOf resolveDiscount
      simp [hp, hd, ha, he, hfix, hfx]

/-- C4 witness: on storeC10x the supplied code OLD exists but is inactive,
and the computed discount is 0. -/
theorem C4_checkout_promo_eligibility_witness :
    discountOf storeC10x "u" "OLD" 0 = 0 := by
  have hj : jsToUpper "OLD" = "OLD" := by decide
  exact (C4_checkout_promo_eligibility storeC10x "u" "OLD" 0).2.1
    ⟨"OLD", "fixed", 10, 0, none, none, false, [], 0, 1⟩
    (by rw [hj]; norm_num [findDiscount, storeC10x, List.find?])
    (Or.inl rfl)

/-! ### C5 -/

/-- C5: the direct-buy transaction body writes values computed from the
snapshots read before the transaction began (first conjunct: the
committed transaction is exactly buyTxn applied to the pre-reads).  When
two concurrent buys of the same game by the same user both pre-read
storeC5x before either commits, the two committed transactions leave
totalSold = 1 and wallet = 90 (second and third conjuncts): one debit and
one increment are lost.  Serialized, the same two buys leave totalSold = 2
and wallet = 80 (last two conjuncts).  The claim that in-scope re-reads
make such lost updates impossible is contradicted by the code. -/
theorem C5_stale_snapshot_loses_concurrent_update :
    buyGame storeC5x "u" "g" =
      (BuyResult.success 90, buyTxn storeC5x "u" "g" ⟨100⟩ ⟨"G", 10, 0, true⟩) ∧
    findGame (buyTxn (buyTxn storeC5x "u" "g" ⟨100⟩ ⟨"G", 10, 0, true⟩)
        "u" "g" ⟨100⟩ ⟨"G", 10, 0, true⟩) "g" = some ⟨"G", 10, 1, true⟩ ∧
    findUser (buyTxn (buyTxn storeC5x "u" "g" ⟨100⟩ ⟨"G", 10, 0, true⟩)
        "u" "g" ⟨100⟩ ⟨"G", 10, 0, true⟩) "u" = some ⟨90⟩ ∧
    findGame (buyGame (buyGame storeC5x "u" "g").2 "u" "g").2 "g" =
      some ⟨"G", 10, 2, true⟩ ∧
    findUser (buyGame (buyGame storeC5x "u" "g").2 "u" "g").2 "u" =
      some ⟨80⟩ := by
  have hgid : ("g" == "") = false := by decide
  refine ⟨?_, ?_, ?_, ?_, ?_⟩ <;>
    norm_num [buyGame, buyTxn, findUser, findGame, setWallet, grantLibrary,
      updateFirst, storeC5x, List.lookup, hgid]

/-! ### C6 -/

/-- C6 counterexample: two serialized POST /api/orders requests redeeming
the fresh single-use code FIXED10 drive its usedCount to 2 while its
usageLimit is 1 — an operation of the program raises usedCount above
usageLimit under serialized execution, refuting the claim. -/
theorem C6_usage_limit_exceeded_counterexample :
    (createOrder (createOrder storeC6x "u1" "g" "G" 10 1 "FIXED10")
        "u2" "g" "G" 10 1 "FIXED10").discounts =
      [⟨"FIXED10", "fixed", 10, 0, none, none, true, [], 2, 1⟩] ∧
    ¬ ((2 : Money) ≤ 1) := by
  have hne : ¬ ("FIXED10" = "") := by decide
  refine ⟨?_, by norm_num⟩
  norm_num [createOrder, findDiscount, storeC6x, updateFirst, List.find?, hne]

/-- C6 amended: a user identity never appears more than once in a code's
usedBy set — the usage update adds the user only when absent (arrayUnion)
and the rollback removes every occurrence (arrayRemove), while the
order-recording endpoint never touches usedBy — but usedCount is
incremented with no limit check by POST /api/orders, so a serialized
execution can raise usedCount above usageLimit (final conjunct: a single
further order recording against a code already at its limit of 2 yields
usedCount 3). -/
theorem C6_usedBy_at_most_once_but_limit_unenforced :
    (∀ (snap stored : DiscountCode) (uid : String),
        stored.usedBy.count uid ≤ 1 →
        (applyUsage snap uid stored).usedBy.count uid ≤ 1) ∧
    (∀ (snap stored : DiscountCode) (uid : String),
        (rollbackUsage snap uid stored).usedBy.count uid = 0) ∧
    (∀ (s : Store) (uid gid gname redeem : String) (price qty : Money),
        (createOrder s uid gid gname price qty redeem).discounts.map
            DiscountCode.usedBy = s.discounts.map DiscountCode.usedBy) ∧
    ((createOrder storeC6y "x" "g" "G" 5 1 "LIM2").discounts =
       [⟨"LIM2", "fixed", 5, 0, none, none, true, [], 3, 2⟩] ∧
     ¬ ((3 : Money) ≤ 2)) := by
  refine ⟨?_, ?_, ?_, ?_, by norm_num⟩
  · intro snap stored uid h
    unfold applyUsage
    cases hc : stored.usedBy.contains uid with
    | true => simpa using h
    | false =>
      have hnm : uid ∉ stored.usedBy := by
        simp at hc
        exact hc
      have h0 : stored.usedBy.count uid = 0 := by
        rw [List.count_eq_zero]
        exact hnm
      simp [hc, h0]
  · intro snap stored uid
    unfold rollbackUsage
    simp only
    rw [List.count_eq_zero]
    intro hm
    have := List.of_mem_filter hm
    simp at this
  · intro s uid gid gname redeem price qty
    unfold createOrder
    cases hr : (redeem == "") with
    | true => simp [hr]
    | false =>
      simp only [hr, Bool.false_eq_true, if_false]
      cases hd : findDiscount s redeem with
      | none => rfl
      | some d =>
        simp only
        exact map_updateFirst (fun x => x.code == redeem)
          (fun stored => { stored with usedCount := d.usedCount + 1 })
          DiscountCode.usedBy (fun a => rfl) s.discounts
  · have hne : ¬ ("LIM2" = "") := by decide
    norm_num [createOrder, findDiscount, storeC6y, updateFirst, List.find?, hne]

/-- C6 witness: the at-most-once and usedBy-untouched parts applied at
concrete inputs: recording an order against FIXED10 leaves its usedBy
empty, and the usage update applied to that code adds "w" exactly once. -/
theorem C6_usedBy_at_most_once_but_limit_unenforced_witness :
    (applyUsage ⟨"FIXED10", "fixed", 10, 0, none, none, true, [], 0, 1⟩ "w"
       ⟨"FIXED10", "fixed", 10, 0, none, none, true, [], 0, 1⟩).usedBy.count
        "w" ≤ 1 ∧
    (createOrder storeC6x "u1" "g" "G" 10 1 "FIXED10").discounts.map
        DiscountCode.usedBy = storeC6x.discounts.map DiscountCode.usedBy := by
  constructor
  · exact C6_usedBy_at_most_once_but_limit_unenforced.1
      ⟨"FIXED10", "fixed", 10, 0, none, none, true, [], 0, 1⟩
      ⟨"FIXED10", "fixed", 10, 0, none, none, true, [], 0, 1⟩ "w" (by simp)
  · exact C6_usedBy_at_most_once_but_limit_unenforced.2.2.1 storeC6x
      "u1" "g" "G" "FIXED10" 10 1

/-! ### C7 -/

/-- C7 counterexample: POST /api/orders on storeC7x records a completed
order for game g and leaves the games collection — in particular g's
totalSold of 3 — entirely unchanged, refuting the claim that every
operation recording a completed Order increments totalSold. -/
theorem C7_order_recorded_without_totalSold_counterexample :
    (createOrder storeC7x "u" "g" "G" 10 1 "").orders =
      [⟨"u", "g", "G", 1, 10, "completed", ""⟩] ∧
    (createOrder storeC7x "u" "g" "G" 10 1 "").games = storeC7x.games ∧
    findGame (createOrder storeC7x "u" "g" "G" 10 1 "") "g" =
      some ⟨"G", 10, 3, true⟩ := by
  refine ⟨?_, ?_, ?_⟩ <;>
    norm_num [createOrder, findGame, findDiscount, storeC7x, List.lookup]

/-- C7 amended: the two settlement paths do pair each recorded order with
a totalSold increment — the direct buy appends one completed order and
writes the game's totalSold to its pre-read value + 1, and each settled
checkout line appends one completed order and writes that game's totalSold
to its pre-read value + quantity — but the bare order-recording endpoint
(POST /api/orders) appends a completed order without touching any game,
so it does not preserve totalSold ≥ completed orders. -/
theorem C7_settlement_pairs_orders_with_totalSold :
    (∀ (s : Store) (uid gid : String) (u : User) (g : Game),
        (gid == "") = false →
        findUser s uid = some u → findGame s gid = some g →
        ¬ u.wallet < g.price →
        findGame (buyGame s uid gid).2 gid =
          some { g with totalSold := g.totalSold + 1 } ∧
        (buyGame s uid gid).2.orders =
          s.orders ++ [⟨uid, gid, g.name, 1, g.price, "completed", ""⟩]) ∧
    (∀ (pre acc : Store) (uid promo : String) (it : String × Money)
        (g : Game),
        findGame pre it.1 = some g →
        List.lookup it.1 (settleItem pre uid promo acc it).games =
          (List.lookup it.1 acc.games).map
            (fun og => { og with totalSold := g.totalSold + it.2 }) ∧
        (settleItem pre uid promo acc it).orders =
          acc.orders ++
            [⟨uid, it.1, g.name, it.2, g.price * it.2, "completed", promo⟩]) ∧
    (∀ (s : Store) (uid gid gname redeem : String) (price qty : Money),
        (createOrder s uid gid gname price qty redeem).games = s.games ∧
        (createOrder s uid gid gname price qty redeem).orders =
          s.orders ++ [⟨uid, gid, gname, qty, price, "completed", redeem⟩]) := by
  refine ⟨?_, ?_, ?_⟩
  · intro s uid gid u g hgid hu hg hlt
    unfold buyGame
    simp only [hgid, Bool.false_eq_true, if_false, hu, hg, if_neg hlt]
    constructor
    · unfold findGame buyTxn
      simp only
      rw [lookup_updateFirst gid
        (fun a => (a.1, { a.2 with totalSold := g.totalSold + 1 }))
        (fun a => rfl) s.games]
      unfold findGame at hg
      rw [hg]
      rfl
    · rfl
  · intro pre acc uid promo it g hg
    unfold settleItem
    rw [hg]
    constructor
    · simp only
      rw [lookup_updateFirst it.1
        (fun a => (a.1, { a.2 with totalSold := g.totalSold + it.2 }))
        (fun a => rfl) acc.games]
    · rfl
  · intro s uid gid gname redeem price qty
    unfold createOrder
    cases hr : (redeem == "") with
    | true => simp [hr]
    | false =>
      simp only [hr, Bool.false_eq_true, if_false]
      cases hd : findDiscount s redeem with
      | none => exact ⟨rfl, rfl⟩
      | some d => exact ⟨rfl, rfl⟩

/-- C7 witness: the buy conjunct applied on storeA: the settled game's
totalSold becomes 0 + 1 and exactly one completed order is appended. -/
theorem C7_settlement_pairs_orders_with_totalSold_witness :
    findGame (buyGame storeA "u" "g").2 "g" = some ⟨"G", 60, 1, true⟩ ∧
    (buyGame storeA "u" "g").2.orders =
      [⟨"u", "g", "G", 1, 60, "completed", ""⟩] := by
  have h := C7_settlement_pairs_orders_with_totalSold.1 storeA "u" "g"
    ⟨100⟩ ⟨"G", 60, 0, true⟩ (by decide) rfl rfl (by norm_num)
  obtain ⟨h1, h2⟩ := h
  norm_num at h1
  refine ⟨h1, ?_⟩
  rw [h2]
  rfl

/-! ### C8 -/

/-- C8 counterexample: on storeC8x the game g has isActive = false, yet
the direct buy succeeds and settles in full — order recorded, library
granted, wallet debited — refuting the claim that an inactive game fails
with GameInactive and settles nothing. -/
theorem C8_inactive_game_settles_counterexample :
    findGame storeC8x "g" = some ⟨"G", 10, 0, false⟩ ∧
    (buyGame storeC8x "u" "g").1 = BuyResult.success 90 ∧
    (buyGame storeC8x "u" "g").2.orders =
      [⟨"u", "g", "G", 1, 10, "completed", ""⟩] ∧
    (buyGame storeC8x "u" "g").2.library = [("u", "g")] := by
  have hgid : ("g" == "") = false := by decide
  refine ⟨rfl, ?_, ?_, ?_⟩ <;>
    norm_num [buyGame, buyTxn, findUser, findGame, setWallet, grantLibrary,
      updateFirst, storeC8x, List.lookup, hgid]

/-- C8 amended: the direct buy checks only that the game document exists
(absent game: GameNotFound, no mutation) and never reads the active flag,
so a funded buy of an existing game succeeds whatever its isActive value;
the checkout path likewise never reads the flag and silently skips a cart
line whose game document is absent instead of failing. -/
theorem C8_active_flag_not_checked :
    (∀ (s : Store) (uid gid : String) (u : User),
        (gid == "") = false → findUser s uid = some u →
        findGame s gid = none →
        buyGame s uid gid = (BuyResult.gameNotFound, s)) ∧
    (∀ (s : Store) (uid gid : String) (u : User) (g : Game),
        (gid == "") = false → findUser s uid = some u →
        findGame s gid = some g → ¬ u.wallet < g.price →
        (buyGame s uid gid).1 = BuyResult.success (u.wallet - g.price)) ∧
    (∀ (pre acc : Store) (uid promo : String) (it : String × Money),
        findGame pre it.1 = none → settleItem pre uid promo acc it = acc) := by
  refine ⟨?_, ?_, ?_⟩
  · intro s uid gid u hgid hu hg
    unfold buyGame
    simp [hgid, hu, hg]
  · intro s uid gid u g hgid hu hg hlt
    unfold buyGame
    simp [hgid, hu, hg, if_neg hlt]
  · intro pre acc uid promo it hg
    unfold settleItem
    rw [hg]

/-- C8 witness: the success conjunct applied on storeC8x, whose only game
is inactive — the buy still succeeds with the full debit of 10. -/
theorem C8_active_flag_not_checked_witness :
    (buyGame storeC8x "u" "g").1 = BuyResult.success (100 - 10) := by
  exact C8_active_flag_not_checked.2.1 storeC8x "u" "g" ⟨100⟩
    ⟨"G", 10, 0, false⟩ (by decide) rfl rfl (by norm_num)

/-! ### C9 -/

/-- C9: the compensation path evaluated at the failing input.  With the
pre-checkout snapshot snapC9 (usedCount 1), the usage update raises the
stored usedCount to 2; the claimed compensation would decrement that
stored value back to 1, but the code computes
max((snapshot usedCount || 1) - 1, 0) from the stale snapshot and writes
usedCount 0 instead (conjuncts 1-3).  The remaining parts of the claim do
hold: the user is removed from usedBy, the code is reactivated, and the
store-level rollback touches only the discounts collection, never orders,
users (wallet), library or carts. -/
theorem C9_rollback_writes_one_below_snapshot :
    (applyUsage snapC9 "u" snapC9).usedCount = 2 ∧
    (rollbackUsage snapC9 "u" (applyUsage snapC9 "u" snapC9)).usedCount = 0 ∧
    ¬ ((0 : Money) = 2 - 1) ∧
    (rollbackUsage snapC9 "u" (applyUsage snapC9 "u" snapC9)).isActive = true ∧
    (rollbackUsage snapC9 "u" (applyUsage snapC9 "u" snapC9)).usedBy = [] ∧
    (∀ (s : Store) (promo uid : String) (snap : DiscountCode),
        (checkoutRollback s promo uid snap).users = s.users ∧
        (checkoutRollback s promo uid snap).orders = s.orders ∧
        (checkoutRollback s promo uid snap).games = s.games ∧
        (checkoutRollback s promo uid snap).library = s.library ∧
        (checkoutRollback s promo uid snap).carts = s.carts) := by
  refine ⟨?_, ?_, by norm_num, ?_, ?_, ?_⟩
  · norm_num [applyUsage, snapC9]
  · norm_num [rollbackUsage, applyUsage, snapC9]
  · norm_num [rollbackUsage, applyUsage, snapC9]
  · norm_num [rollbackUsage, applyUsage, snapC9]
  · intro s promo uid snap
    exact ⟨rfl, rfl, rfl, rfl, rfl⟩

/-! ### C10 -/

/-- C10: whenever a successful cart checkout supplied a promo code whose
document exists, the post-commit usage update runs unconditionally —
usedCount becomes snapshot usedCount + 1, the user is unioned into usedBy,
and isActive is set to (new usedCount < usageLimit) — with no hypothesis
that the code was active, unexpired, or contributed any discount. -/
theorem C10_usage_update_applied_unconditionally
    (s : Store) (uid promo : String) (now : Int) (u : User)
    (snap : DiscountCode)
    (hp : (promo == "") = false)
    (hd : findDiscount s (jsToUpper promo) = some snap)
    (hc : (cartOf s uid).isEmpty = false)
    (hf : (filteredCartOf s uid).isEmpty = false)
    (hu : findUser s uid = some u)
    (hw : ¬ u.wallet < finalTotalOf s uid promo now)
    (hcount : 0 ≤ snap.usedCount) :
    findDiscount (checkout s uid promo now).2 (jsToUpper promo) =
      some { snap with
             usedBy := if snap.usedBy.contains uid then snap.usedBy
                       else snap.usedBy ++ [uid]
             usedCount := snap.usedCount + 1
             isActive := decide (snap.usedCount + 1 < snap.usageLimit) } := by
  unfold checkout
  simp only [hc, hf, Bool.false_eq_true, if_false, hu, if_neg hw]
  unfold checkoutPost
  rw [resolveDiscount_snd s promo (subtotalOf s uid) now hp, hd]
  simp only
  unfold findDiscount
  simp only [checkoutTxn_discounts]
  rw [find?_updateFirst (fun d => d.code == jsToUpper promo)
    (applyUsage snap uid) (fun a ha => ha) s.discounts]
  unfold findDiscount at hd
  rw [hd]
  unfold applyUsage
  simp only [Option.map_some']
  refine congrArg some ?_
  have hiff : (snap.usedCount + 1 <
      if snap.usageLimit == 0 then 1 else snap.usageLimit) =
      (snap.usedCount + 1 < snap.usageLimit) := by
    by_cases hL : snap.usageLimit = 0
    · have h0 : (snap.usageLimit == 0) = true := by simp [hL]
      rw [h0, if_pos rfl, hL]
      apply propext
      constructor <;> intro h <;> linarith
    · have h0 : (snap.usageLimit == 0) = false := beq_eq_false_iff_ne.mpr hL
      rw [h0]
      simp
  simp only [hiff]

/-- C10 witness: on storeC10x the code OLD is inactive and contributes no
discount, yet after checkout its usedCount is 1, "u" is in usedBy, and
isActive = decide (1 < 1) = false. -/
theorem C10_usage_update_applied_unconditionally_witness :
    findDiscount (checkout storeC10x "u" "OLD" 0).2 (jsToUpper "OLD") =
      some ⟨"OLD", "fixed", 10, 0, none, none, false, ["u"], 1, 1⟩ := by
  have hj : jsToUpper "OLD" = "OLD" := by decide
  have h := C10_usage_update_applied_unconditionally storeC10x "u" "OLD" 0
    ⟨100⟩ ⟨"OLD", "fixed", 10, 0, none, none, false, [], 0, 1⟩
    (by decide)
    (by rw [hj]; norm_num [findDiscount, storeC10x, List.find?])
    (by norm_num [cartOf, storeC10x, List.filter])
    (by norm_num [filteredCartOf, cartOf, ownedOf, storeC10x, List.filter])
    rfl
    (by
      have hne : ¬ ("OLD" = "") := by decide
      norm_num [finalTotalOf, discountOf, subtotalOf, resolveDiscount,
        filteredCartOf, cartOf, ownedOf, findGame, findDiscount, storeC10x,
        List.lookup, List.filter, List.foldl, hj, hne, expireOkAt])
    (by norm_num)
  norm_num at h
  exact h

end GameShop

